import Mathlib

/-!
# Verification of the csv-translation repository

Shallow embedding of the column-translation pipeline implemented (in several
near-duplicate variants) by `csv-translation.py`, `csv-translation-gui.py`,
`translation-csv.py` and `extra/csv-translation-gui.py`.

Modelling conventions:
* A table cell is `Option String`: `none` models a pandas missing value
  (`NaN`/`None`, detected by `pd.isna`), `some s` a cell whose `str()` value
  is `s`.
* A `Table` is the post-`pd.read_csv` dataframe: an ordered list of column
  labels and an ordered list of rows.  pandas guarantees distinct column
  labels after reading, so theorems that depend on column lookup carry a
  `Nodup` hypothesis; rows produced by the CSV parser all have
  `cols.length` cells, which theorems carry as an explicit hypothesis.
* The remote DeepL capability is an oracle
  `tr : String → Except String String` (the target-language argument is a
  constant threaded through every call in the source, so it is pre-applied
  in the oracle); `Except.error msg` models `deepl.DeepLException` with
  message `msg`.
* `pd.read_csv` at a fixed file path is an oracle
  `read : String → ReadResult` from an encoding name to either a parsed
  table, a `UnicodeDecodeError`, or a `pandas.errors.ParserError`; `chardet`
  detection is an oracle value `detected : String` (its confidence score is
  only logged by the source and is not modelled).
* Writing the output file happens exactly on the successful branch of each
  job function (`df.to_csv` is the last statement of the `try` block), so an
  `Outcome.completed` constructor carrying the output table models "an
  output file was written" and every other constructor models "no output
  file was written".
* Python `%` on integers is floored modulus, i.e. `Int.fmod`; `i % 0`
  raises `ZeroDivisionError`, modelled explicitly.
-/

namespace CsvTranslation

/-- A cell of the dataframe: `none` is a pandas missing value. -/
abbrev Cell := Option String

/-- The post-parse dataframe: ordered column labels and ordered rows. -/
structure Table where
  cols : List String
  rows : List (List Cell)
deriving DecidableEq, Repr

/-- Result of one `pd.read_csv(file_path, encoding=e)` attempt. -/
inductive ReadResult where
  | ok (t : Table)
  | unicodeError
  | parserError
deriving DecidableEq, Repr

/-- Error escaping `try_read_csv`: either its own
`ValueError` (no viable encoding, carrying the file path interpolated into
its message), or a `pandas.errors.ParserError` propagating out of the
user-hint branch, which catches only `UnicodeDecodeError`
(`csv-translation.py` line 91). -/
inductive ReadErr where
  | noViable (path : String)
  | parserErr
deriving DecidableEq, Repr

/-- Errors caught (and logged) by `translate_csv_column`'s outer
`except Exception` block. -/
inductive JobErr where
  | read (e : ReadErr)
  | columnNotFound
  | zeroDivMod
deriving DecidableEq, Repr

/-- The constant message of the `ValueError` raised by `determine_column`
(`csv-translation.py` line 167): "the specified column was not found". -/
def columnNotFoundMsg : String := "指定された列が見つかりません。"

/-- The message of the `ValueError` raised when every encoding candidate
fails (`csv-translation.py` line 116): the f-string interpolates the file
path. -/
def noViableMsg (path : String) : String :=
  "ファイル \x27" ++ path ++ "\x27 を読み込めるエンコーディングが見つかりませんでした。"

/-- `self.common_encodings` of `csv-translation.py` (lines 26-30). -/
def common_encodings : List String :=
  ["utf-8", "utf-8-sig", "shift-jis", "cp932", "euc-jp",
   "iso-2022-jp", "latin-1", "ascii", "utf-16", "utf-16-le", "utf-16-be",
   "cp1252", "gb2312", "big5", "euc-kr"]

/-- Guard of the first branch of `determine_column`
(`if column_name and column_name in df.columns`): Python truthiness of a
string is "not `None` and not empty". -/
def nameSelects (cols : List String) (column_name : Option String) : Bool :=
  match column_name with
  | some n => (!(n == "")) && cols.contains n
  | none => false

/-- Guard of the second branch of `determine_column`
(`column_index is not None and 0 <= column_index < len(df.columns)`). -/
def idxSelects (cols : List String) (column_index : Option Int) : Bool :=
  match column_index with
  | some i => decide (0 ≤ i) && decide (i < (cols.length : Int))
  | none => false

/-- `DeepLTranslator.determine_column` (`csv-translation.py` lines 161-167;
identical in `csv-translation-gui.py` lines 158-164 and inlined at
`translation-csv.py` lines 37-42). -/
def determine_column (cols : List String) (column_name : Option String)
    (column_index : Option Int) : Except String String :=
  if nameSelects cols column_name then
    Except.ok (column_name.getD "")
  else if idxSelects cols column_index then
    Except.ok (cols.getD (column_index.getD 0).toNat "")
  else
    Except.error columnNotFoundMsg

/-- The blankness test `not str(text).strip()` (equivalently
`str(text).strip() == ""`, `translation-csv.py` line 49): the string is
empty or consists only of whitespace.  The source uses the stripped value
only for this truthiness test, never as data, so the test is modelled
directly. -/
def stripEmpty (s : String) : Bool :=
  s.data.all Char.isWhitespace

/-- `DeepLTranslator.translate_text` (`csv-translation.py` lines 169-176):
returns the output cell text together with the number of calls made to the
translate capability (0 for a blank/missing cell, 1 otherwise).  On a
`DeepLException` the original text is returned. -/
def translate_text (tr : String → Except String String) (cell : Cell) :
    String × Nat :=
  match cell with
  | none => ("", 0)
  | some s =>
    if stripEmpty s then ("", 0)
    else
      match tr s with
      | Except.ok t => (t, 1)
      | Except.error _ => (s, 1)

/-- Accumulated state of the translation loop: the `translated_texts` list,
the number of translate-capability calls made, and the progress events
`(rowNumber, totalRows)` logged (and, in the GUI variant, delivered to the
progress callback). -/
structure LoopState where
  outs : List String
  calls : Nat
  events : List (Nat × Nat)
deriving DecidableEq, Repr

/-- Result of the row loop of `translate_csv_column`
(`csv-translation.py` lines 148-152): either it finishes, or the
`i % log_interval` expression raises `ZeroDivisionError` (when
`log_interval = 0`), which happens after the row's translation has been
appended. -/
inductive LoopResult where
  | done (s : LoopState)
  | modError (s : LoopState)
deriving DecidableEq, Repr

/-- The progress condition `i % log_interval == 0 or i == total`
(`csv-translation.py` line 151), for a non-zero interval; Python `%` on
integers is floored modulus. -/
def progressHit (total : Nat) (log_interval : Int) (i : Nat) : Bool :=
  (Int.fmod (i : Int) log_interval == 0) || (i == total)

/-- The row loop of `DeepLTranslator.translate_csv_column`
(`csv-translation.py` lines 145-152): `i` is the 1-based row number of the
head cell. -/
def runRows (tr : String → Except String String) (total : Nat)
    (log_interval : Int) : List Cell → Nat → LoopResult
  | [], _ => LoopResult.done ⟨[], 0, []⟩
  | c :: cs, i =>
    let r := translate_text tr c
    if log_interval = 0 then
      LoopResult.modError ⟨[r.1], r.2, []⟩
    else
      let ev : List (Nat × Nat) :=
        if progressHit total log_interval i then [(i, total)] else []
      match runRows tr total log_interval cs (i + 1) with
      | LoopResult.done s =>
        LoopResult.done ⟨r.1 :: s.outs, r.2 + s.calls, ev ++ s.events⟩
      | LoopResult.modError s =>
        LoopResult.modError ⟨r.1 :: s.outs, r.2 + s.calls, ev ++ s.events⟩

/-- `df[target_column] = translated_texts`: replace column `j` of every row.
-/
def setColumn (t : Table) (j : Nat) (vals : List String) : Table :=
  ⟨t.cols, List.zipWith (fun r v => r.set j (some v)) t.rows vals⟩

/-- `df[target_column]` as a list of cells, where `j` is the position of the
resolved column label. -/
def colCells (df : Table) (j : Nat) : List Cell :=
  df.rows.map (fun r => r.getD j none)

/-- Terminal state of one `translate_csv_column` job of
`csv-translation.py`: `completed` carries the output table written by
`df.to_csv` (line 155), the progress events and the number of translate
calls; `failed` models the outer `except Exception` block (lines 158-159),
which logs the error and writes nothing. -/
inductive Outcome where
  | completed (output : Table) (events : List (Nat × Nat)) (calls : Nat)
  | failed (err : JobErr) (calls : Nat)
deriving DecidableEq, Repr

/-- `DeepLTranslator.translate_csv_column` of `csv-translation.py`
(lines 142-159), starting from the already-parsed dataframe: resolve the
target column, run the row loop, and on success write the output.  Any
exception (column resolution, `ZeroDivisionError` from `i % 0`) is caught
by the outer `except Exception` and the job ends with no output. -/
def translate_csv_column_core (tr : String → Except String String)
    (df : Table) (column_name : Option String) (column_index : Option Int)
    (log_interval : Int) : Outcome :=
  match determine_column df.cols column_name column_index with
  | Except.error _ => Outcome.failed JobErr.columnNotFound 0
  | Except.ok colName =>
    match runRows tr df.rows.length log_interval
        (colCells df (df.cols.indexOf colName)) 1 with
    | LoopResult.modError s => Outcome.failed JobErr.zeroDivMod s.calls
    | LoopResult.done s =>
      Outcome.completed (setColumn df (df.cols.indexOf colName) s.outs)
        s.events s.calls

/-- The fallback scan of `try_read_csv` (`csv-translation.py` lines
106-113): iterate `common_encodings`, skipping the detected encoding
(and only it), returning the first successful parse.  The second
component is the list of encodings actually attempted, in order. -/
def fallbackScan (read : String → ReadResult) (detected : String) :
    List String → Option (Table × String) × List String
  | [] => (none, [])
  | e :: es =>
    if e = detected then fallbackScan read detected es
    else
      match read e with
      | ReadResult.ok t => (some (t, e), [e])
      | _ =>
        let r := fallbackScan read detected es
        (r.1, e :: r.2)

/-- The detection part of `try_read_csv` (`csv-translation.py` lines
94-116): try the detected encoding (catching both `UnicodeDecodeError` and
`ParserError`), then the fallback list, then raise the no-viable-encoding
`ValueError`.  `pre` is the list of encodings already attempted (the user
hint, when it was concrete and failed to decode). -/
def try_detect (read : String → ReadResult) (detected : String)
    (file_path : String) (pre : List String) :
    Except ReadErr (Table × String) × List String :=
  match read detected with
  | ReadResult.ok t => (Except.ok (t, detected), pre ++ [detected])
  | _ =>
    let fb := fallbackScan read detected common_encodings
    match fb.1 with
    | some p => (Except.ok p, pre ++ detected :: fb.2)
    | none => (Except.error (ReadErr.noViable file_path), pre ++ detected :: fb.2)

/-- `DeepLTranslator.try_read_csv` (`csv-translation.py` lines 85-116).
Besides the source's return value (dataframe and encoding used, or a
raised error) the model also returns the list of encodings attempted, in
order, to state ordering claims.  The hint branch runs only for a truthy
`encoding` argument (`if encoding:`) and catches only
`UnicodeDecodeError`; a `ParserError` there propagates uncaught. -/
def try_read_csv (read : String → ReadResult) (detected : String)
    (file_path : String) (encoding : Option String) :
    Except ReadErr (Table × String) × List String :=
  match encoding with
  | some e =>
    if e = "" then try_detect read detected file_path []
    else
      match read e with
      | ReadResult.ok t => (Except.ok (t, e), [e])
      | ReadResult.unicodeError => try_detect read detected file_path [e]
      | ReadResult.parserError => (Except.error ReadErr.parserErr, [e])
  | none => try_detect read detected file_path []

/-- `DeepLTranslator.translate_csv_column` of `csv-translation.py`
(lines 118-159) from the file upward: the `encoding == "auto"` test
(line 126) maps the "auto" sentinel to a hint-less `try_read_csv` call, a
read failure is caught by the outer `except Exception` (no output), and a
successful parse continues with the core job.  (The `has_header=False`
re-read of lines 134-140 is not exercised by any claim and the model fixes
the `has_header=True` path.) -/
def translate_csv_column_full (read : String → ReadResult) (detected : String)
    (tr : String → Except String String) (input_file : String)
    (column_name : Option String) (column_index : Option Int)
    (encoding : Option String) (log_interval : Int) : Outcome :=
  let rr :=
    if encoding = some "auto" then try_read_csv read detected input_file none
    else try_read_csv read detected input_file encoding
  match rr.1 with
  | Except.error e => Outcome.failed (JobErr.read e) 0
  | Except.ok (df, _) =>
    translate_csv_column_core tr df column_name column_index log_interval

/-- Result of the row loop of the GUI variant
(`csv-translation-gui.py` lines 136-147), which additionally polls the
`stop_translation` flag at the top of each iteration. -/
inductive GuiLoopResult where
  | cancelled (calls : Nat)
  | done (s : LoopState)
  | modError (s : LoopState)
deriving DecidableEq, Repr

/-- The row loop of `DeepLTranslator.translate_csv_column` of
`csv-translation-gui.py` (lines 136-147).  `flag i` is the value of the
shared `stop_translation` flag observed by the check at the top of
iteration `i` (1-based); when it is set the loop returns immediately
(`return False`), discarding the rows translated so far. -/
def runRowsGui (tr : String → Except String String) (flag : Nat → Bool)
    (total : Nat) (log_interval : Int) : List Cell → Nat → GuiLoopResult
  | [], _ => GuiLoopResult.done ⟨[], 0, []⟩
  | c :: cs, i =>
    if flag i then GuiLoopResult.cancelled 0
    else
      let r := translate_text tr c
      if log_interval = 0 then
        GuiLoopResult.modError ⟨[r.1], r.2, []⟩
      else
        let ev : List (Nat × Nat) :=
          if progressHit total log_interval i then [(i, total)] else []
        match runRowsGui tr flag total log_interval cs (i + 1) with
        | GuiLoopResult.cancelled k => GuiLoopResult.cancelled (r.2 + k)
        | GuiLoopResult.done s =>
          GuiLoopResult.done ⟨r.1 :: s.outs, r.2 + s.calls, ev ++ s.events⟩
        | GuiLoopResult.modError s =>
          GuiLoopResult.modError ⟨r.1 :: s.outs, r.2 + s.calls, ev ++ s.events⟩

/-- Terminal state of one GUI `translate_csv_column` job
(`csv-translation-gui.py` lines 113-156): `completed` models returning the
output path after `df.to_csv`, `cancelled` models `return False`, and
`raised` models the outer `except` block, which logs and re-raises
(no output is written in the last two cases). -/
inductive GuiOutcome where
  | completed (output : Table) (events : List (Nat × Nat)) (calls : Nat)
  | cancelled (calls : Nat)
  | raised (err : JobErr) (calls : Nat)
deriving DecidableEq, Repr

/-- `DeepLTranslator.translate_csv_column` of `csv-translation-gui.py`
(lines 130-153), starting from the already-parsed dataframe. -/
def gui_translate_csv_column (tr : String → Except String String)
    (flag : Nat → Bool) (df : Table) (column_name : Option String)
    (column_index : Option Int) (log_interval : Int) : GuiOutcome :=
  match determine_column df.cols column_name column_index with
  | Except.error _ => GuiOutcome.raised JobErr.columnNotFound 0
  | Except.ok colName =>
    match runRowsGui tr flag df.rows.length log_interval
        (colCells df (df.cols.indexOf colName)) 1 with
    | GuiLoopResult.cancelled k => GuiOutcome.cancelled k
    | GuiLoopResult.modError s => GuiOutcome.raised JobErr.zeroDivMod s.calls
    | GuiLoopResult.done s =>
      GuiOutcome.completed (setColumn df (df.cols.indexOf colName) s.outs)
        s.events s.calls

/-- The log-interval validation of `DeepLTranslatorGUI.start_translation`
(`csv-translation-gui.py` lines 443-446): a parsed interval with
`log_interval <= 0` is rejected with an error dialog before the worker
thread (and hence the translation loop) is started. -/
def start_translation_accepts (log_interval : Int) : Bool :=
  !(decide (log_interval ≤ 0))

/-- Result of the row loop of `translation-csv.py` (lines 48-57): this
variant has no per-cell exception handling, so a `DeepLException`
propagates out of the loop with the rows translated so far discarded. -/
inductive SimpleLoopRes where
  | done (outs : List String) (calls : Nat) (events : List (Nat × Nat))
  | raised (msg : String) (calls : Nat)
deriving DecidableEq, Repr

/-- The row loop of `translate_csv_column` of `translation-csv.py`
(lines 48-57).  A blank cell appends `""` and `continue`s, skipping the
progress check; a non-blank cell is translated with no surrounding
`try`, and the fixed progress interval is 10. -/
def runRowsSimple (tr : String → Except String String) (total : Nat) :
    List Cell → Nat → SimpleLoopRes
  | [], _ => SimpleLoopRes.done [] 0 []
  | c :: cs, i =>
    let ev : List (Nat × Nat) :=
      if (i % 10 == 0) || (i == total) then [(i, total)] else []
    match c with
    | none =>
      match runRowsSimple tr total cs (i + 1) with
      | SimpleLoopRes.done outs calls events =>
        SimpleLoopRes.done ("" :: outs) calls events
      | SimpleLoopRes.raised msg calls => SimpleLoopRes.raised msg calls
    | some s =>
      if stripEmpty s then
        match runRowsSimple tr total cs (i + 1) with
        | SimpleLoopRes.done outs calls events =>
          SimpleLoopRes.done ("" :: outs) calls events
        | SimpleLoopRes.raised msg calls => SimpleLoopRes.raised msg calls
      else
        match tr s with
        | Except.error msg => SimpleLoopRes.raised msg 1
        | Except.ok t =>
          match runRowsSimple tr total cs (i + 1) with
          | SimpleLoopRes.done outs calls events =>
            SimpleLoopRes.done (t :: outs) (1 + calls) (ev ++ events)
          | SimpleLoopRes.raised msg calls =>
            SimpleLoopRes.raised msg (1 + calls)

/-- Terminal state of one `translate_csv_column` job of
`translation-csv.py` (lines 22-65): the outer `except` prints the error
and re-raises (`raise`, line 65), so any exception aborts the job with no
output written. -/
inductive SimpleOutcome where
  | completed (output : Table) (events : List (Nat × Nat)) (calls : Nat)
  | raised (msg : String) (calls : Nat)
deriving DecidableEq, Repr

/-- `translate_csv_column` of `translation-csv.py` (lines 22-65), starting
from the already-parsed dataframe; the column-resolution logic of lines
37-42 is `determine_column`. -/
def translation_csv_column (tr : String → Except String String) (df : Table)
    (column_name : Option String) (column_index : Option Int) :
    SimpleOutcome :=
  match determine_column df.cols column_name column_index with
  | Except.error msg => SimpleOutcome.raised msg 0
  | Except.ok colName =>
    match runRowsSimple tr df.rows.length
        (colCells df (df.cols.indexOf colName)) 1 with
    | SimpleLoopRes.raised msg calls => SimpleOutcome.raised msg calls
    | SimpleLoopRes.done outs calls events =>
      SimpleOutcome.completed (setColumn df (df.cols.indexOf colName) outs)
        events calls

/-- Modelled from the spec (§4.1, amended): the order in which encoding
candidates are attempted — the concrete user hint (when truthy), then the
detected encoding, then the fallback list with only the detected encoding
removed. -/
def amendedOrder (hint : Option String) (detected : String) : List String :=
  (match hint with
   | some e => if e = "" then [] else [e]
   | none => []) ++
  detected :: common_encodings.filter (fun e => !(e == detected))

/-- Modelled from the spec: "trying each in order until one parses
successfully" — the prefix of a candidate list up to and including the
first successful parse. -/
def truncAtSuccess (read : String → ReadResult) : List String → List String
  | [] => []
  | e :: es =>
    match read e with
    | ReadResult.ok _ => [e]
    | _ => e :: truncAtSuccess read es

/-- Modelled from the spec: the first candidate of a list that parses
successfully, with its parsed table. -/
def firstSuccess (read : String → ReadResult) :
    List String → Option (Table × String)
  | [] => none
  | e :: es =>
    match read e with
    | ReadResult.ok t => some (t, e)
    | _ => firstSuccess read es

/-- A blank source cell: missing, or empty after trimming surrounding
whitespace (`pd.isna(text) or not str(text).strip()`). -/
def isBlank (c : Cell) : Bool :=
  match c with
  | none => true
  | some s => stripEmpty s

/-- A translate-capability stub that always succeeds. -/
def trOk : String → Except String String :=
  fun s => Except.ok ("T:" ++ s)

/-- A translate-capability stub that always raises a provider error. -/
def trBoom : String → Except String String :=
  fun _ => Except.error "quota exceeded"

/-- A parsing stub for which every encoding raises `UnicodeDecodeError`. -/
def readFailAll : String → ReadResult :=
  fun _ => ReadResult.unicodeError

/-- A parsing stub for which every encoding raises
`pandas.errors.ParserError`. -/
def readParserAll : String → ReadResult :=
  fun _ => ReadResult.parserError

/-- A cancellation-flag trace that is first observed set at the check
before row 2. -/
def flagAtTwo : Nat → Bool :=
  fun i => 2 ≤ i

/-! ## Helper lemmas -/

theorem getD_set_ne {α : Type} {l : List α} {i j : Nat} (h : i ≠ j)
    (a d : α) : (l.set i a).getD j d = l.getD j d := by
  simp [List.getD_eq_getElem?_getD, List.getElem?_set_ne h]

theorem getD_set_self {α : Type} {l : List α} {i : Nat} (h : i < l.length)
    (a d : α) : (l.set i a).getD i d = a := by
  simp [List.getD_eq_getElem?_getD, List.getElem?_set_self h]

theorem zipWithSet_getD (j : Nat) (rows : List (List Cell))
    (vals : List String) (i : Nat) (h : vals.length = rows.length) :
    (List.zipWith (fun r v => r.set j (some v)) rows vals).getD i [] =
      (rows.getD i []).set j (some (vals.getD i "")) := by
  induction rows generalizing vals i with
  | nil =>
    cases vals with
    | nil => simp
    | cons v vs => simp at h
  | cons r rs ih =>
    cases vals with
    | nil => simp at h
    | cons v vs =>
      cases i with
      | zero => simp
      | succ n =>
        simp only [List.zipWith_cons_cons, List.getD_cons_succ]
        exact ih vs n (by simpa using h)

theorem colCells_length (df : Table) (j : Nat) :
    (colCells df j).length = df.rows.length := by
  simp [colCells]

theorem map_getD_col (rows : List (List Cell)) (j i : Nat) :
    (rows.map (fun r => r.getD j none)).getD i none =
      (rows.getD i []).getD j none := by
  induction rows generalizing i with
  | nil => simp
  | cons r rs ih =>
    cases i with
    | zero => simp
    | succ n => simpa using ih n

theorem colCells_getD (df : Table) (j i : Nat) :
    (colCells df j).getD i none = (df.rows.getD i []).getD j none :=
  map_getD_col df.rows j i

theorem determine_column_ok_mem {cols : List String} {name : Option String}
    {idx : Option Int} {c : String}
    (h : determine_column cols name idx = Except.ok c) : c ∈ cols := by
  unfold determine_column at h
  by_cases h1 : nameSelects cols name = true
  · rw [if_pos h1] at h
    injection h with h2
    subst h2
    cases name with
    | none => simp [nameSelects] at h1
    | some n =>
      simp only [nameSelects, Bool.and_eq_true] at h1
      simpa using h1.2
  · rw [if_neg h1] at h
    by_cases h2 : idxSelects cols idx = true
    · rw [if_pos h2] at h
      injection h with h3
      subst h3
      cases idx with
      | none => simp [idxSelects] at h2
      | some i =>
        simp only [idxSelects, Bool.and_eq_true, decide_eq_true_eq] at h2
        have hlt : i.toNat < cols.length := by omega
        simp only [Option.getD_some]
        rw [List.getD_eq_getElem cols "" hlt]
        exact List.getElem_mem hlt
    · rw [if_neg h2] at h
      exact absurd h (by simp)

theorem determine_column_mem_indexOf_lt {cols : List String}
    {name : Option String} {idx : Option Int} {c : String}
    (h : determine_column cols name idx = Except.ok c) :
    cols.indexOf c < cols.length :=
  List.indexOf_lt_length.mpr (determine_column_ok_mem h)

/-- Master lemma for the `csv-translation.py` row loop: with a non-zero
interval the loop always finishes, the output is the pointwise
`translate_text` image, the call count adds the per-cell call counts, and
a progress event fires exactly at the rows satisfying `progressHit`. -/
theorem runRows_eq_done (tr : String → Except String String) (total : Nat)
    (interval : Int) (h : interval ≠ 0) (cells : List Cell) (i : Nat) :
    runRows tr total interval cells i =
      LoopResult.done
        ⟨cells.map (fun c => (translate_text tr c).1),
         (cells.map (fun c => (translate_text tr c).2)).sum,
         ((List.range' i cells.length).filter (progressHit total interval)).map
           (fun n => (n, total))⟩ := by
  induction cells generalizing i with
  | nil => simp [runRows]
  | cons c cs ih =>
    rw [runRows, if_neg h, ih (i + 1)]
    simp only [List.map_cons, List.sum_cons, List.length_cons,
      List.range'_succ, List.filter_cons]
    by_cases hp : progressHit total interval i
    · simp [hp]
    · simp [hp]

/-- With a non-zero interval, `runRows` never raises. -/
theorem runRows_outs_length {tr : String → Except String String}
    {total : Nat} {interval : Int} {cells : List Cell} {i : Nat}
    {s : LoopState} (h : runRows tr total interval cells i =
      LoopResult.done s) : s.outs.length = cells.length := by
  induction cells generalizing i s with
  | nil =>
    rw [runRows] at h
    injection h with h2
    subst h2
    rfl
  | cons c cs ih =>
    rw [runRows] at h
    by_cases hI : interval = 0
    · rw [if_pos hI] at h
      exact absurd h (by simp)
    · rw [if_neg hI] at h
      cases hrec : runRows tr total interval cs (i + 1) with
      | done s2 =>
        rw [hrec] at h
        injection h with h2
        subst h2
        simpa using ih hrec
      | modError s2 =>
        rw [hrec] at h
        exact absurd h (by simp)

theorem translate_text_blank (tr : String → Except String String) (c : Cell)
    (h : isBlank c = true) : translate_text tr c = ("", 0) := by
  cases c with
  | none => rfl
  | some s =>
    simp only [isBlank] at h
    simp [translate_text, h]

theorem translate_text_error (tr : String → Except String String)
    (s msg : String) (hs : stripEmpty s = false)
    (h : tr s = Except.error msg) :
    translate_text tr (some s) = (s, 1) := by
  simp [translate_text, hs, h]

theorem translate_text_calls_le_one (tr : String → Except String String)
    (c : Cell) : (translate_text tr c).2 ≤ 1 := by
  cases c with
  | none => simp [translate_text]
  | some s =>
    cases hs : stripEmpty s
    · cases htr : tr s <;> simp [translate_text, hs, htr]
    · simp [translate_text, hs]

theorem map_fst_getD (tr : String → Except String String)
    (cells : List Cell) (i : Nat) :
    (cells.map (fun c => (translate_text tr c).1)).getD i "" =
      (translate_text tr (cells.getD i none)).1 := by
  induction cells generalizing i with
  | nil => simp [translate_text]
  | cons c cs ih =>
    cases i with
    | zero => simp
    | succ n => simpa using ih n

theorem setColumn_rows_length (df : Table) (j : Nat) (vals : List String)
    (h : vals.length = df.rows.length) :
    (setColumn df j vals).rows.length = df.rows.length := by
  simp [setColumn, List.length_zipWith, h]

/-- For a row that exists and has the invariant width, the resolved column
position is inside the row. -/
theorem row_width {df : Table} {i j : Nat}
    (hrl : ∀ r ∈ df.rows, r.length = df.cols.length)
    (hi : i < df.rows.length) (hj : j < df.cols.length) :
    j < (df.rows.getD i []).length := by
  rw [List.getD_eq_getElem df.rows [] hi]
  rw [hrl _ (List.getElem_mem hi)]
  exact hj

/-- With a successfully resolved column and a non-zero interval, the
`csv-translation.py` job always completes, and its output column, call
count and progress events are the pointwise image of the loop body. -/
theorem core_completed (tr : String → Except String String) (df : Table)
    (name : Option String) (idx : Option Int) (interval : Int)
    (colName : String) (hI : interval ≠ 0)
    (hdet : determine_column df.cols name idx = Except.ok colName) :
    translate_csv_column_core tr df name idx interval =
      Outcome.completed
        (setColumn df (df.cols.indexOf colName)
          ((colCells df (df.cols.indexOf colName)).map
            (fun c => (translate_text tr c).1)))
        (((List.range' 1 df.rows.length).filter
            (progressHit df.rows.length interval)).map
          (fun n => (n, df.rows.length)))
        (((colCells df (df.cols.indexOf colName)).map
            (fun c => (translate_text tr c).2)).sum) := by
  simp only [translate_csv_column_core, hdet]
  rw [runRows_eq_done tr df.rows.length interval hI
    (colCells df (df.cols.indexOf colName)) 1]
  rw [colCells_length]

/-! ## Claim theorems -/

/-- Claim C3 (confirmed): for every input table on which the translation job
completes, the output table has the same row count, the same column list
(hence the same column set), and the same row order as the input, and every
cell outside the selected target column is unchanged — the `i`-th output row
agrees with the `i`-th input row at every position other than the resolved
column.  `hnd` reflects pandas' guarantee of distinct column labels after
`read_csv`. -/
theorem c3_frame_effect (tr : String → Except String String) (df : Table)
    (name : Option String) (idx : Option Int) (interval : Int)
    (out : Table) (events : List (Nat × Nat)) (calls : Nat)
    (hnd : df.cols.Nodup)
    (hcomp : translate_csv_column_core tr df name idx interval =
      Outcome.completed out events calls) :
    out.cols = df.cols ∧
    out.rows.length = df.rows.length ∧
    ∃ colName, determine_column df.cols name idx = Except.ok colName ∧
      ∀ i k, k ≠ df.cols.indexOf colName →
        (out.rows.getD i []).getD k none = (df.rows.getD i []).getD k none := by
  cases hdet : determine_column df.cols name idx with
  | error m =>
    simp only [translate_csv_column_core, hdet] at hcomp
    exact absurd hcomp (by simp)
  | ok colName =>
    cases hrun : runRows tr df.rows.length interval
        (colCells df (df.cols.indexOf colName)) 1 with
    | modError s =>
      simp only [translate_csv_column_core, hdet, hrun] at hcomp
      exact absurd hcomp (by simp)
    | done s =>
      simp only [translate_csv_column_core, hdet, hrun] at hcomp
      injection hcomp with h1 h2 h3
      subst h1
      have hlen : s.outs.length = df.rows.length := by
        have h4 := runRows_outs_length hrun
        rw [colCells_length] at h4
        exact h4
      refine ⟨rfl, setColumn_rows_length df _ s.outs hlen, colName, rfl, ?_⟩
      intro i k hk
      simp only [setColumn]
      rw [zipWithSet_getD _ df.rows s.outs i hlen, getD_set_ne (Ne.symm hk)]

/-- Witness for C3 at a concrete completing job. -/
theorem c3_frame_effect_witness :
    (⟨["a", "b"], [[some "T:x", some "y"]]⟩ : Table).cols = ["a", "b"] ∧
    (⟨["a", "b"], [[some "T:x", some "y"]]⟩ : Table).rows.length =
      (⟨["a", "b"], [[some "x", some "y"]]⟩ : Table).rows.length ∧
    ∃ colName, determine_column ["a", "b"] (some "a") none =
        Except.ok colName ∧
      ∀ i k, k ≠ (["a", "b"] : List String).indexOf colName →
        ((⟨["a", "b"], [[some "T:x", some "y"]]⟩ : Table).rows.getD i []).getD
            k none =
          ((⟨["a", "b"], [[some "x", some "y"]]⟩ : Table).rows.getD i []).getD
            k none :=
  c3_frame_effect trOk ⟨["a", "b"], [[some "x", some "y"]]⟩ (some "a") none
    10 ⟨["a", "b"], [[some "T:x", some "y"]]⟩ [(1, 1)] 1 (by decide) rfl

/-- Claim C1 (amended): in the variants with per-cell error handling
(`csv-translation.py` `translate_text`, reused by `csv-translation-gui.py`,
and the inline handler of `extra/csv-translation-gui.py`), every cell whose
translation call raises a provider error keeps its original untranslated
text, no row is dropped and the job completes; in `translation-csv.py`,
whose loop has no `try` around the translate call, the same provider error
propagates and aborts the whole job with no output written. -/
theorem c1_amended (tr : String → Except String String) (df : Table)
    (name : Option String) (idx : Option Int) (interval : Int)
    (colName s msg : String)
    (hI : interval ≠ 0) (hnd : df.cols.Nodup)
    (hrl : ∀ r ∈ df.rows, r.length = df.cols.length)
    (hdet : determine_column df.cols name idx = Except.ok colName)
    (hs : stripEmpty s = false) (htr : tr s = Except.error msg) :
    (∃ out events calls,
      translate_csv_column_core tr df name idx interval =
        Outcome.completed out events calls ∧
      out.rows.length = df.rows.length ∧
      ∀ i t m, i < df.rows.length →
        (df.rows.getD i []).getD (df.cols.indexOf colName) none = some t →
        stripEmpty t = false → tr t = Except.error m →
        (out.rows.getD i []).getD (df.cols.indexOf colName) none = some t) ∧
    translation_csv_column tr ⟨["text"], [[some s]]⟩ (some "text") none =
      SimpleOutcome.raised msg 1 := by
  constructor
  · refine ⟨_, _, _,
      core_completed tr df name idx interval colName hI hdet, ?_, ?_⟩
    · exact setColumn_rows_length df _ _ (by simp [colCells])
    · intro i t m hi hcell ht htm
      have hj : df.cols.indexOf colName < df.cols.length :=
        determine_column_mem_indexOf_lt hdet
      have hrow : df.cols.indexOf colName < (df.rows.getD i []).length :=
        row_width hrl hi hj
      simp only [setColumn]
      rw [zipWithSet_getD _ df.rows _ i (by simp [colCells])]
      rw [getD_set_self hrow]
      rw [map_fst_getD, colCells_getD, hcell]
      rw [translate_text_error tr t m ht htm]
  · have hdet2 : determine_column ["text"] (some "text") none =
        Except.ok "text" := rfl
    have hidx : (["text"] : List String).indexOf "text" = 0 := rfl
    simp only [translation_csv_column, hdet2, hidx]
    have hcol : colCells ⟨["text"], [[some s]]⟩ 0 = [some s] := by
      simp [colCells]
    rw [hcol]
    simp [runRowsSimple, hs, htr]

/-- Witness for C1 at a concrete table and failing provider stub. -/
theorem c1_amended_witness :
    (∃ out events calls,
      translate_csv_column_core trBoom ⟨["a"], [[some "x"]]⟩ (some "a") none
          10 = Outcome.completed out events calls ∧
      out.rows.length =
        (⟨["a"], [[some "x"]]⟩ : Table).rows.length ∧
      ∀ i t m, i < (⟨["a"], [[some "x"]]⟩ : Table).rows.length →
        ((⟨["a"], [[some "x"]]⟩ : Table).rows.getD i []).getD
            ((["a"] : List String).indexOf "a") none = some t →
        stripEmpty t = false → trBoom t = Except.error m →
        (out.rows.getD i []).getD ((["a"] : List String).indexOf "a") none =
          some t) ∧
    translation_csv_column trBoom ⟨["text"], [[some "x"]]⟩ (some "text")
        none = SimpleOutcome.raised "quota exceeded" 1 :=
  c1_amended trBoom ⟨["a"], [[some "x"]]⟩ (some "a") none 10 "a" "x"
    "quota exceeded" (by decide) (by decide) (by decide) rfl (by decide) rfl

/-- Claim C1 counterexample: the claim as stated fails on the
`translation-csv.py` variant — with a one-row table whose only cell is
`"x"` and a provider that raises on it, the job is aborted (`raised`),
the row is dropped and no output is written, instead of the cell falling
back to its original text. -/
theorem c1_counterexample :
    translation_csv_column trBoom ⟨["text"], [[some "x"]]⟩ (some "text")
        none = SimpleOutcome.raised "quota exceeded" 1 := rfl

/-- Claim C2 (confirmed): every row whose source cell in the selected
column is missing or blank after trimming gets exactly the empty string as
its output cell, and no translate call is made for that cell — the total
call count is the sum of the per-cell counts and a blank cell's count is 0.
The last conjunct is the same fact for the `translation-csv.py` loop, whose
blank branch appends `""` and `continue`s without touching the
capability. -/
theorem c2_blank_cells (tr : String → Except String String) (df : Table)
    (name : Option String) (idx : Option Int) (interval : Int)
    (colName : String)
    (hI : interval ≠ 0) (hnd : df.cols.Nodup)
    (hrl : ∀ r ∈ df.rows, r.length = df.cols.length)
    (hdet : determine_column df.cols name idx = Except.ok colName) :
    (∃ out events,
      translate_csv_column_core tr df name idx interval =
        Outcome.completed out events
          (((colCells df (df.cols.indexOf colName)).map
              (fun c => (translate_text tr c).2)).sum) ∧
      ∀ i, i < df.rows.length →
        isBlank ((df.rows.getD i []).getD (df.cols.indexOf colName) none) =
          true →
        (out.rows.getD i []).getD (df.cols.indexOf colName) none =
          some "") ∧
    (∀ c : Cell, isBlank c = true → (translate_text tr c).2 = 0) ∧
    (∀ (c : Cell) (cs : List Cell) (total i : Nat), isBlank c = true →
      runRowsSimple tr total (c :: cs) i =
        match runRowsSimple tr total cs (i + 1) with
        | SimpleLoopRes.done outs calls events =>
          SimpleLoopRes.done ("" :: outs) calls events
        | SimpleLoopRes.raised m k => SimpleLoopRes.raised m k) := by
  refine ⟨⟨_, _, core_completed tr df name idx interval colName hI hdet, ?_⟩,
    ?_, ?_⟩
  · intro i hi hblank
    have hj : df.cols.indexOf colName < df.cols.length :=
      determine_column_mem_indexOf_lt hdet
    have hrow : df.cols.indexOf colName < (df.rows.getD i []).length :=
      row_width hrl hi hj
    simp only [setColumn]
    rw [zipWithSet_getD _ df.rows _ i (by simp [colCells])]
    rw [getD_set_self hrow]
    rw [map_fst_getD, colCells_getD]
    rw [translate_text_blank tr _ hblank]
  · intro c hblank
    rw [translate_text_blank tr c hblank]
  · intro c cs total i hblank
    cases c with
    | none => rfl
    | some s =>
      simp only [isBlank] at hblank
      simp only [runRowsSimple, hblank, if_true]

theorem translate_text_calls_nonblank (tr : String → Except String String)
    (c : Cell) (h : isBlank c = false) : (translate_text tr c).2 = 1 := by
  cases c with
  | none => simp [isBlank] at h
  | some s =>
    simp only [isBlank] at h
    cases htr : tr s <;> simp [translate_text, h, htr]

/-- Claim C5 counterexample: with the single column named `""` and the
name selector `""` (supplied, and present among the table's columns),
resolution does not select that column but fails; and the failure message
is one fixed string that names neither a name selector (here "zzz") nor an
index selector (here 5). -/
theorem c5_counterexample :
    ("" ∈ ([""] : List String)) ∧
    determine_column [""] (some "") none = Except.error columnNotFoundMsg ∧
    determine_column ["a"] (some "zzz") none =
      Except.error columnNotFoundMsg ∧
    determine_column ["a"] none (some 5) = Except.error columnNotFoundMsg :=
  ⟨by decide, rfl, rfl, rfl⟩

/-- Claim C5 (amended): if a non-empty name is supplied and exists among
the table's columns, that column is selected; otherwise, if an index `i`
with `0 <= i < columnCount` is supplied, the column at that position is
selected; otherwise resolution fails with the fixed column-not-found
message (which does not mention the supplied selector); and a failed
resolution ends the job with zero translate calls — resolution happens
before any translation API call. -/
theorem c5_amended (cols : List String) (name : Option String)
    (idx : Option Int) (tr : String → Except String String) (df : Table)
    (interval : Int) :
    (∀ n, name = some n → n ≠ "" → n ∈ cols →
      determine_column cols name idx = Except.ok n) ∧
    (nameSelects cols name = false → ∀ i : Int, idx = some i → 0 ≤ i →
      i < (cols.length : Int) →
      determine_column cols name idx = Except.ok (cols.getD i.toNat "")) ∧
    (nameSelects cols name = false → idxSelects cols idx = false →
      determine_column cols name idx = Except.error columnNotFoundMsg) ∧
    (determine_column df.cols name idx = Except.error columnNotFoundMsg →
      translate_csv_column_core tr df name idx interval =
        Outcome.failed JobErr.columnNotFound 0) := by
  refine ⟨?_, ?_, ?_, ?_⟩
  · intro n hn hne hmem
    subst hn
    have h1 : nameSelects cols (some n) = true := by
      simp [nameSelects, hne, hmem]
    simp [determine_column, h1]
  · intro h1 i hi h0 hlen
    subst hi
    have h2 : idxSelects cols (some i) = true := by
      simp only [idxSelects, Bool.and_eq_true, decide_eq_true_eq]
      omega
    simp [determine_column, h1, h2]
  · intro h1 h2
    simp [determine_column, h1, h2]
  · intro hdet
    simp [translate_csv_column_core, hdet]

/-- Witness for C5 at a concrete successful name resolution. -/
theorem c5_amended_witness :
    determine_column ["a", "b"] (some "b") none = Except.ok "b" :=
  (c5_amended ["a", "b"] (some "b") none trOk ⟨["a", "b"], []⟩ 10).1 "b" rfl
    (by decide) (by decide)

/-- Claim C10 (confirmed): an empty-string column name is treated as if no
name were supplied — resolution is identical to the name-less call, falls
through to the index selector, and fails with the column-not-found error
when no valid index is supplied, even when a column whose header is the
empty string exists (so a column named `""` can never be selected by
name). -/
theorem c10_empty_name (cols : List String) (idx : Option Int)
    (h : "" ∈ cols) :
    determine_column cols (some "") idx = determine_column cols none idx ∧
    (idxSelects cols idx = false →
      determine_column cols (some "") idx =
        Except.error columnNotFoundMsg) := by
  have h0 : nameSelects cols (some "") = false := by simp [nameSelects]
  have h1 : nameSelects cols none = false := rfl
  constructor
  · simp [determine_column, h0, h1]
  · intro h2
    simp [determine_column, h0, h2]

/-- Witness for C10: the table whose only column is named `""`. -/
theorem c10_empty_name_witness :
    determine_column [""] (some "") none =
      determine_column [""] none none ∧
    (idxSelects [""] none = false →
      determine_column [""] (some "") none =
        Except.error columnNotFoundMsg) :=
  c10_empty_name [""] none (by decide)

/-- Claim C8 counterexample: a source table with zero rows and a
resolvable column does not fail with any EmptyInput error — the job
completes and an output file (with the header only) is written. -/
theorem c8_counterexample :
    translate_csv_column_core trOk ⟨["a"], []⟩ (some "a") none 10 =
      Outcome.completed ⟨["a"], []⟩ [] 0 := rfl

/-- Claim C8 (amended): the code has no empty-input check.  A zero-row
table whose column selector resolves completes normally with a zero-row
output table (an output file is written); a zero-column table fails at
column resolution with the generic column-not-found error (no translate
calls, no output); no EmptyInput error exists anywhere. -/
theorem c8_amended (tr : String → Except String String) (cols : List String)
    (rows : List (List Cell)) (name : Option String) (idx : Option Int)
    (interval : Int) (colName : String) :
    (determine_column cols name idx = Except.ok colName →
      translate_csv_column_core tr ⟨cols, []⟩ name idx interval =
        Outcome.completed ⟨cols, []⟩ [] 0) ∧
    translate_csv_column_core tr ⟨[], rows⟩ name idx interval =
      Outcome.failed JobErr.columnNotFound 0 := by
  constructor
  · intro hdet
    simp only [translate_csv_column_core, hdet]
    rfl
  · have h1 : nameSelects [] name = false := by
      cases name <;> simp [nameSelects]
    have h2 : idxSelects ([] : List String) idx = false := by
      cases idx with
      | none => rfl
      | some i =>
        simp only [idxSelects, List.length_nil, Nat.cast_zero,
          Bool.and_eq_false_iff, decide_eq_false_iff_not]
        omega
    have hdet : determine_column ([] : List String) name idx =
        Except.error columnNotFoundMsg := by
      simp [determine_column, h1, h2]
    simp [translate_csv_column_core, hdet]

/-- Witness for C8: the zero-row branch at a concrete table. -/
theorem c8_amended_witness :
    translate_csv_column_core trOk ⟨["a"], []⟩ (some "a") none 7 =
      Outcome.completed ⟨["a"], []⟩ [] 0 :=
  (c8_amended trOk ["a"] [] (some "a") none 7 "a").1 rfl

/-- Claim C9 counterexample: with `log_interval = 0` the core job is not
rejected before the loop — the first row's translation call is made (one
call), and only then the job aborts on the `i % 0` ZeroDivisionError. -/
theorem c9_counterexample :
    translate_csv_column_core trOk ⟨["a"], [[some "x"]]⟩ (some "a") none 0 =
      Outcome.failed JobErr.zeroDivMod 1 := rfl

/-- Claim C9 (amended): the GUI front end rejects a non-positive
`log_interval` before starting the worker (so no translate calls are made
there), but the core translation routine itself does no validation: with
interval 0 the first row is translated and then the job aborts with a
modulo-by-zero error (no output); with any non-zero interval the loop runs
to completion and a progress event `(rowNumber, totalRows)` is emitted
after row `rowNumber` exactly when `rowNumber mod interval == 0` (Python
floored modulus) or `rowNumber == totalRows`. -/
theorem c9_amended (tr : String → Except String String) (df : Table)
    (name : Option String) (idx : Option Int) (interval : Int)
    (colName : String)
    (hdet : determine_column df.cols name idx = Except.ok colName) :
    (∀ n : Int, n ≤ 0 → start_translation_accepts n = false) ∧
    (∀ n : Int, 0 < n → start_translation_accepts n = true) ∧
    (interval ≠ 0 →
      ∃ out calls,
        translate_csv_column_core tr df name idx interval =
          Outcome.completed out
            (((List.range' 1 df.rows.length).filter
                (progressHit df.rows.length interval)).map
              (fun n => (n, df.rows.length))) calls) ∧
    (df.rows ≠ [] →
      isBlank ((df.rows.getD 0 []).getD (df.cols.indexOf colName) none) =
        false →
      translate_csv_column_core tr df name idx 0 =
        Outcome.failed JobErr.zeroDivMod 1) := by
  refine ⟨?_, ?_, ?_, ?_⟩
  · intro n hn
    simp [start_translation_accepts, hn]
  · intro n hn
    have h6 : ¬(n ≤ 0) := by omega
    simp [start_translation_accepts, h6]
  · intro hI
    exact ⟨_, _, core_completed tr df name idx interval colName hI hdet⟩
  · intro hne hblank
    cases hc : colCells df (df.cols.indexOf colName) with
    | nil =>
      have h4 : df.rows.length = 0 := by
        rw [← colCells_length df (df.cols.indexOf colName), hc]
        rfl
      exact absurd (List.length_eq_zero.mp h4) hne
    | cons c cs =>
      have hcell : isBlank c = false := by
        have h5 := colCells_getD df (df.cols.indexOf colName) 0
        rw [hc] at h5
        simp only [List.getD_cons_zero] at h5
        rw [h5]
        exact hblank
      simp only [translate_csv_column_core, hdet, hc]
      rw [show runRows tr df.rows.length 0 (c :: cs) 1 =
          LoopResult.modError
            ⟨[(translate_text tr c).1], (translate_text tr c).2, []⟩ from by
        simp [runRows]]
      rw [translate_text_calls_nonblank tr c hcell]

/-- Witness for C9 at concrete intervals and one-row table. -/
theorem c9_amended_witness :
    start_translation_accepts 0 = false ∧
    start_translation_accepts 10 = true ∧
    translate_csv_column_core trOk ⟨["b"], [[some "y"]]⟩ (some "b") none 0 =
      Outcome.failed JobErr.zeroDivMod 1 := by
  refine ⟨?_, ?_, ?_⟩
  · exact (c9_amended trOk ⟨["b"], [[some "y"]]⟩ (some "b") none 1 "b"
      rfl).1 0 (by decide)
  · exact (c9_amended trOk ⟨["b"], [[some "y"]]⟩ (some "b") none 1 "b"
      rfl).2.1 10 (by decide)
  · exact (c9_amended trOk ⟨["b"], [[some "y"]]⟩ (some "b") none 1 "b"
      rfl).2.2.2 (by decide) (by decide)

/-- Witness for C2 at a table with a whitespace cell and a missing cell in
the selected column. -/
theorem c2_blank_cells_witness :
    (∃ out events,
      translate_csv_column_core trOk
          ⟨["a", "b"], [[some " ", some "p"], [none, some "q"],
            [some "x", some "r"]]⟩ (some "a") none 5 =
        Outcome.completed out events
          (((colCells
              ⟨["a", "b"], [[some " ", some "p"], [none, some "q"],
                [some "x", some "r"]]⟩
              ((["a", "b"] : List String).indexOf "a")).map
              (fun c => (translate_text trOk c).2)).sum) ∧
      ∀ i, i < (⟨["a", "b"], [[some " ", some "p"], [none, some "q"],
            [some "x", some "r"]]⟩ : Table).rows.length →
        isBlank (((⟨["a", "b"], [[some " ", some "p"], [none, some "q"],
              [some "x", some "r"]]⟩ : Table).rows.getD i []).getD
            ((["a", "b"] : List String).indexOf "a") none) = true →
        (out.rows.getD i []).getD ((["a", "b"] : List String).indexOf "a")
            none = some "") ∧
    (∀ c : Cell, isBlank c = true → (translate_text trOk c).2 = 0) ∧
    (∀ (c : Cell) (cs : List Cell) (total i : Nat), isBlank c = true →
      runRowsSimple trOk total (c :: cs) i =
        match runRowsSimple trOk total cs (i + 1) with
        | SimpleLoopRes.done outs calls events =>
          SimpleLoopRes.done ("" :: outs) calls events
        | SimpleLoopRes.raised m k => SimpleLoopRes.raised m k) :=
  c2_blank_cells trOk
    ⟨["a", "b"], [[some " ", some "p"], [none, some "q"], [some "x", some "r"]]⟩
    (some "a") none 5 "a" (by decide) (by decide) (by decide) rfl

/-- If the cancellation flag is observed set at the check before some row
`K` within the remaining cells, the GUI loop returns `cancelled`, having
made at most `K - i` translate calls beyond the ones already counted. -/
theorem runRowsGui_cancels (tr : String → Except String String)
    (flag : Nat → Bool) (total : Nat) (interval : Int)
    (hI : interval ≠ 0) :
    ∀ (cells : List Cell) (i K : Nat), i ≤ K → K < i + cells.length →
      flag K = true →
      ∃ calls, runRowsGui tr flag total interval cells i =
        GuiLoopResult.cancelled calls ∧ calls ≤ K - i := by
  intro cells
  induction cells with
  | nil =>
    intro i K h1 h2 h3
    simp only [List.length_nil, Nat.add_zero] at h2
    omega
  | cons c cs ih =>
    intro i K h1 h2 h3
    by_cases hf : flag i = true
    · refine ⟨0, ?_, by omega⟩
      simp [runRowsGui, hf]
    · have hiK : i < K := by
        rcases Nat.lt_or_ge i K with h | h
        · exact h
        · have h5 : i = K := by omega
          rw [h5] at hf
          exact absurd h3 hf
      obtain ⟨calls, hc, hle⟩ := ih (i + 1) K (by omega)
        (by simp only [List.length_cons] at h2; omega) h3
      refine ⟨(translate_text tr c).2 + calls, ?_, ?_⟩
      · simp [runRowsGui, hf, hI, hc]
      · have h6 := translate_text_calls_le_one tr c
        omega

/-- Claim C6 (confirmed): if the cancellation flag is set at the check
before row `K` (with `K` within the table), the GUI job checks the flag
before each row's translation call and returns the `Cancelled` result
(`return False`) — not an error — having made at most `K - 1` translate
calls; the rows already translated are discarded and no output file is
written (only a `completed` outcome writes one). -/
theorem c6_cancellation (tr : String → Except String String)
    (flag : Nat → Bool) (df : Table) (name : Option String)
    (idx : Option Int) (interval : Int) (colName : String) (K : Nat)
    (hI : 0 < interval)
    (hdet : determine_column df.cols name idx = Except.ok colName)
    (hK1 : 1 ≤ K) (hK2 : K ≤ df.rows.length) (hflag : flag K = true) :
    ∃ calls, gui_translate_csv_column tr flag df name idx interval =
      GuiOutcome.cancelled calls ∧ calls ≤ K - 1 := by
  obtain ⟨calls, hc, hle⟩ := runRowsGui_cancels tr flag df.rows.length
    interval (by omega) (colCells df (df.cols.indexOf colName)) 1 K hK1
    (by rw [colCells_length]; omega) hflag
  refine ⟨calls, ?_, hle⟩
  simp [gui_translate_csv_column, hdet, hc]

/-- Witness for C6: flag set before row 2 of a three-row table cancels the
job after at most one call. -/
theorem c6_cancellation_witness :
    ∃ calls, gui_translate_csv_column trOk flagAtTwo
        ⟨["a"], [[some "x"], [some "y"], [some "z"]]⟩ (some "a") none 10 =
      GuiOutcome.cancelled calls ∧ calls ≤ 1 :=
  c6_cancellation trOk flagAtTwo ⟨["a"], [[some "x"], [some "y"], [some "z"]]⟩
    (some "a") none 10 "a" 2 (by decide) rfl (by decide) (by decide)
    (by decide)

/-- The fallback pass equals a first-success scan of the common list with
only the detected encoding removed. -/
theorem fallbackScan_eq (read : String → ReadResult) (detected : String)
    (l : List String) :
    fallbackScan read detected l =
      (firstSuccess read (l.filter (fun e => !(e == detected))),
       truncAtSuccess read (l.filter (fun e => !(e == detected)))) := by
  induction l with
  | nil => rfl
  | cons e es ih =>
    by_cases he : e = detected
    · subst he
      simp [fallbackScan, List.filter_cons, ih]
    · rw [List.filter_cons]
      have hbe : (!(e == detected)) = true := by simp [he]
      rw [if_pos hbe]
      simp only [fallbackScan, if_neg he]
      cases hr : read e with
      | ok t => simp [firstSuccess, truncAtSuccess, hr]
      | unicodeError => simp [firstSuccess, truncAtSuccess, hr, ih]
      | parserError => simp [firstSuccess, truncAtSuccess, hr, ih]

/-- The detection-plus-fallback pass as a first-success scan over the
detected encoding followed by the deduplicated common list. -/
theorem try_detect_eq (read : String → ReadResult) (detected : String)
    (file_path : String) (pre : List String) :
    try_detect read detected file_path pre =
      ((match firstSuccess read
          (detected :: common_encodings.filter (fun e => !(e == detected)))
          with
        | some p => Except.ok p
        | none => Except.error (ReadErr.noViable file_path)),
       pre ++ truncAtSuccess read
         (detected :: common_encodings.filter (fun e => !(e == detected)))) := by
  cases hr : read detected with
  | ok t =>
    simp only [try_detect, hr]
    simp [firstSuccess, truncAtSuccess, hr]
  | unicodeError =>
    simp only [try_detect, hr, fallbackScan_eq]
    cases hfs : firstSuccess read
        (common_encodings.filter (fun e => !(e == detected))) with
    | none => simp [firstSuccess, truncAtSuccess, hr, hfs]
    | some p => simp [firstSuccess, truncAtSuccess, hr, hfs]
  | parserError =>
    simp only [try_detect, hr, fallbackScan_eq]
    cases hfs : firstSuccess read
        (common_encodings.filter (fun e => !(e == detected))) with
    | none => simp [firstSuccess, truncAtSuccess, hr, hfs]
    | some p => simp [firstSuccess, truncAtSuccess, hr, hfs]

/-- Characterization of `try_read_csv`: provided the concrete hint does not
raise a `ParserError` (which the hint branch would propagate uncaught), the
resolver attempts exactly the candidates of `amendedOrder` up to the first
success, returns the first candidate that parses, and raises the
no-viable-encoding error naming the path when none does. -/
theorem try_read_csv_spec (read : String → ReadResult) (detected : String)
    (file_path : String) (encoding : Option String)
    (hok : ∀ e, encoding = some e → e ≠ "" →
      read e ≠ ReadResult.parserError) :
    try_read_csv read detected file_path encoding =
      ((match firstSuccess read (amendedOrder encoding detected) with
        | some p => Except.ok p
        | none => Except.error (ReadErr.noViable file_path)),
       truncAtSuccess read (amendedOrder encoding detected)) := by
  cases encoding with
  | none =>
    simp only [try_read_csv, amendedOrder]
    rw [try_detect_eq]
    simp
  | some e =>
    by_cases he : e = ""
    · subst he
      simp only [try_read_csv, if_pos rfl, amendedOrder, if_pos rfl]
      rw [try_detect_eq]
      simp
    · simp only [try_read_csv, if_neg he, amendedOrder, if_neg he]
      cases hr : read e with
      | ok t => simp [firstSuccess, truncAtSuccess, hr]
      | unicodeError =>
        rw [try_detect_eq]
        simp [firstSuccess, truncAtSuccess, hr]
      | parserError => exact absurd hr (hok e rfl he)

theorem firstSuccess_none (read : String → ReadResult) (l : List String)
    (h : ∀ e ∈ l, ∀ t, read e ≠ ReadResult.ok t) :
    firstSuccess read l = none := by
  induction l with
  | nil => rfl
  | cons e es ih =>
    cases hr : read e with
    | ok t => exact absurd hr (h e (by simp) t)
    | unicodeError =>
      simp only [firstSuccess, hr]
      exact ih (fun x hx t => h x (by simp [hx]) t)
    | parserError =>
      simp only [firstSuccess, hr]
      exact ih (fun x hx t => h x (by simp [hx]) t)

/-- Claim C4 counterexample: with user hint "utf-8" (failing to decode) and
detected encoding "shift-jis", the resolver attempts "utf-8" twice — the
fallback pass skips only the detected encoding, not every encoding already
attempted, so the failed user hint is re-attempted. -/
theorem c4_counterexample :
    (try_read_csv readFailAll "shift-jis" "in.csv" (some "utf-8")).2 =
      ["utf-8", "shift-jis", "utf-8", "utf-8-sig", "cp932", "euc-jp",
       "iso-2022-jp", "latin-1", "ascii", "utf-16", "utf-16-le",
       "utf-16-be", "cp1252", "gb2312", "big5", "euc-kr"] ∧
    ((try_read_csv readFailAll "shift-jis" "in.csv" (some "utf-8")).2).count
      "utf-8" = 2 :=
  ⟨rfl, rfl⟩

/-- Claim C4 (amended): the resolver tries a concrete (non-"auto",
non-empty) user hint first, returning immediately on success and falling
through on decode failure; then the detected encoding; then the fixed
fallback list in its listed order, skipping only the detected encoding (a
failed user hint present in the list is re-attempted), returning with the
first candidate that parses successfully, and failing with the
no-viable-encoding error when none does — the attempt sequence is exactly
`amendedOrder` truncated at the first success, provided the hint does not
fail with a (propagating) ParserError. -/
theorem c4_amended (read : String → ReadResult) (detected : String)
    (file_path : String) (encoding : Option String)
    (hok : ∀ e, encoding = some e → e ≠ "" →
      read e ≠ ReadResult.parserError) :
    try_read_csv read detected file_path encoding =
      ((match firstSuccess read (amendedOrder encoding detected) with
        | some p => Except.ok p
        | none => Except.error (ReadErr.noViable file_path)),
       truncAtSuccess read (amendedOrder encoding detected)) :=
  try_read_csv_spec read detected file_path encoding hok

/-- Witness for C4 at a concrete all-failing parse stub. -/
theorem c4_amended_witness :
    try_read_csv readFailAll "utf-16" "b.csv" (some "utf-8") =
      ((match firstSuccess readFailAll
          (amendedOrder (some "utf-8") "utf-16") with
        | some p => Except.ok p
        | none => Except.error (ReadErr.noViable "b.csv")),
       truncAtSuccess readFailAll (amendedOrder (some "utf-8") "utf-16")) :=
  c4_amended readFailAll "utf-16" "b.csv" (some "utf-8")
    (fun e he hne => by simp [readFailAll])

/-- Claim C7 counterexample: when the concrete user hint fails with a CSV
`ParserError` — a failure to parse that is not a decode failure — the hint
branch (which catches only `UnicodeDecodeError`) propagates the pandas
error: even though every encoding fails to parse, the resolver does not
fail with the no-viable-encoding error naming the file path, and the job
fails with the propagated parser error instead. -/
theorem c7_counterexample :
    (try_read_csv readParserAll "shift-jis" "in.csv" (some "utf-8")).1 =
      Except.error ReadErr.parserErr ∧
    translate_csv_column_full readParserAll "shift-jis" trOk "in.csv"
        (some "a") none (some "utf-8") 10 =
      Outcome.failed (JobErr.read ReadErr.parserErr) 0 :=
  ⟨rfl, rfl⟩

/-- Claim C7 (amended): when every encoding fails to decode (in particular
the concrete hint, if any, fails with a decode error — a hint failing with
a pandas ParserError propagates that error instead), the resolver fails
with the ValueError whose message interpolates the file path, the job
terminates with that error caught by the outer handler, zero translate
calls are made, and no output file is written. -/
theorem c7_amended (read : String → ReadResult) (detected : String)
    (tr : String → Except String String) (input_file : String)
    (name : Option String) (idx : Option Int) (encoding : Option String)
    (interval : Int)
    (hread : ∀ e, read e = ReadResult.unicodeError) :
    (try_read_csv read detected input_file encoding).1 =
      Except.error (ReadErr.noViable input_file) ∧
    translate_csv_column_full read detected tr input_file name idx encoding
        interval =
      Outcome.failed (JobErr.read (ReadErr.noViable input_file)) 0 ∧
    ∃ pre post, noViableMsg input_file = pre ++ input_file ++ post := by
  have key : ∀ enc2 : Option String,
      (try_read_csv read detected input_file enc2).1 =
        Except.error (ReadErr.noViable input_file) := by
    intro enc2
    have hok2 : ∀ e, enc2 = some e → e ≠ "" →
        read e ≠ ReadResult.parserError := by
      intro e _ _
      rw [hread e]
      simp
    have hspec := try_read_csv_spec read detected input_file enc2 hok2
    have hnone : firstSuccess read (amendedOrder enc2 detected) = none :=
      firstSuccess_none read _ (fun x hx t => by rw [hread x]; simp)
    simp [hspec, hnone]
  refine ⟨key encoding, ?_,
    ⟨"ファイル \x27",
     "\x27 を読み込めるエンコーディングが見つかりませんでした。", rfl⟩⟩
  by_cases hauto : encoding = some "auto"
  · have h2 := key none
    simp [translate_csv_column_full, hauto, h2]
  · have h2 := key encoding
    simp [translate_csv_column_full, hauto, h2]

/-- Witness for C7 at the concrete all-decode-failing stub. -/
theorem c7_amended_witness :
    (try_read_csv readFailAll "shift-jis" "data.csv" (some "utf-8")).1 =
      Except.error (ReadErr.noViable "data.csv") ∧
    translate_csv_column_full readFailAll "shift-jis" trOk "data.csv"
        (some "a") none (some "utf-8") 10 =
      Outcome.failed (JobErr.read (ReadErr.noViable "data.csv")) 0 ∧
    ∃ pre post, noViableMsg "data.csv" = pre ++ "data.csv" ++ post :=
  c7_amended readFailAll "shift-jis" trOk "data.csv" (some "a") none
    (some "utf-8") 10 (fun e => rfl)

end CsvTranslation
